import Mathlib

/-!
Shallow embedding of the video-to-blog pipeline orchestrator of this
repository: the route handlers `videos/process`, `blog/generate`,
`wordpress/publish`, `workflow/process`, the job-status GET handlers, and
the `useJobStatus` polling hook, together with the Prisma-backed record
store they mutate.  Remote stage clients (video fetch, Deepgram
transcription, OpenAI generation, WordPress publish) are test doubles:
each handler takes the outcome the remote call would produce and the
embedding counts how many times each client is consulted.
-/

namespace V2B

/-- JS truthiness of an optional string value: `undefined`, `null` and the
empty string are falsy, every other string is truthy. -/
def truthy : Option String → Bool
  | none => false
  | some s => !(s == "")

/-- Models JS `String.prototype.trim` (a platform function, not
repository code): strips leading and trailing whitespace. -/
def jsTrim (s : String) : String :=
  String.mk (((s.toList.dropWhile Char.isWhitespace).reverse.dropWhile
    Char.isWhitespace).reverse)

/-- Models JS `String.prototype.toLowerCase` (a platform function):
lower-cases every character. -/
def jsToLower (s : String) : String :=
  String.mk (s.toList.map Char.toLower)

/-- Models JS `String.prototype.endsWith` (a platform function): the
string ends with the given suffix. -/
def jsEndsWith (s suffix : String) : Bool :=
  s.toList.drop (s.toList.length - suffix.toList.length) == suffix.toList

/-- The result of the WHATWG URL parser (`new URL(url)`) restricted to the
two components the source reads: `protocol` (scheme with trailing colon,
e.g. "https:") and `pathname`. -/
structure URLParts where
  protocol : String
  pathname : String
deriving Repr, DecidableEq

/-- Scheme characters permitted after the first one. -/
def isSchemeChar (c : Char) : Bool :=
  c.isAlphanum || c == '+' || c == '-' || c == '.'

/-- Models the platform URL constructor (`new URL`, an external
collaborator of the source, not repository code) on the input shapes the
repository exercises: `scheme://authority/path[?query][#fragment]`.
Returns `none` where the constructor would throw (no scheme, or no `//`
authority for these inputs). -/
def parseURL (s : String) : Option URLParts :=
  let schemeChars := s.toList.takeWhile (fun c => !(c == ':'))
  if schemeChars.isEmpty then none
  else if !(schemeChars.length < s.length) then none
  else
    match schemeChars with
    | [] => none
    | c0 :: rest =>
      if !(c0.isAlpha && rest.all isSchemeChar) then none
      else
        let scheme := String.mk schemeChars
        let afterScheme := (s.toList.drop (schemeChars.length + 1))
        match afterScheme with
        | c1 :: c2 :: tail =>
          if c1 == '/' && c2 == '/' then
            let afterAuth := tail.dropWhile
              (fun c => !(c == '/' || c == '?' || c == '#'))
            let path := afterAuth.takeWhile (fun c => !(c == '?' || c == '#'))
            let pathname := if path.isEmpty then "/" else String.mk path
            some { protocol := scheme ++ ":", pathname := pathname }
          else none
        | _ => none

/-- `DEFAULT_OPTIONS.allowedFormats` of `src/lib/video-fetcher.ts`. -/
def allowedFormats : List String :=
  [".mp4", ".mov", ".webm", ".avi", ".mkv", ".flv", ".wmv"]

/-- `isValidVideoUrl` of `src/lib/video-fetcher.ts`: the URL must parse,
its protocol must be http/https, and its lower-cased pathname must end in
a recognized video file extension. -/
def isValidVideoUrl (url : String) : Bool :=
  match parseURL url with
  | none => false
  | some parsedUrl =>
    if !(["http:", "https:"].contains parsedUrl.protocol) then false
    else
      let pathname := jsToLower parsedUrl.pathname
      allowedFormats.any (fun ext => jsEndsWith pathname ext)

/-- The `VideoJob` Prisma model (fields the handlers read or write). -/
structure VideoJob where
  id : String
  userId : String
  videoUrl : String
  status : String
  transcription : Option String
  blogPost : Option String
deriving Repr, DecidableEq

/-- The `BlogPost` Prisma model (fields the handlers read or write).
`userId` is optional because the workflow route creates blog posts
without one. -/
structure BlogPost where
  id : String
  userId : Option String
  videoJobId : String
  title : String
  content : String
  wordCount : Nat
  status : String
  wordpressPostId : Option String
deriving Repr, DecidableEq

/-- The `WordPressConfig` Prisma model (fields the handlers read). -/
structure WPConfig where
  siteUrl : String
  username : String
  appPassword : String
deriving Repr, DecidableEq

/-- The persistent store the handlers run against: the three Prisma
tables, each as an insertion-ordered list of records.  `wpConfigs` is
keyed by `userId`. -/
structure DB where
  jobs : List VideoJob
  blogPosts : List BlogPost
  wpConfigs : List (String × WPConfig)
deriving Repr, DecidableEq

/-- `prisma.videoJob.findUnique (where: id)`. -/
def DB.findJob (db : DB) (id : String) : Option VideoJob :=
  db.jobs.find? (fun j => j.id == id)

/-- `prisma.blogPost.findUnique (where: id)`. -/
def DB.findBlogPost (db : DB) (id : String) : Option BlogPost :=
  db.blogPosts.find? (fun b => b.id == id)

/-- The `blogPosts` relation of a job (`include: blogPosts`). -/
def DB.blogPostsOf (db : DB) (jobId : String) : List BlogPost :=
  db.blogPosts.filter (fun b => b.videoJobId == jobId)

/-- `prisma.wordPressConfig.findUnique (where: userId)`. -/
def DB.findWpConfig (db : DB) (userId : String) : Option WPConfig :=
  (db.wpConfigs.find? (fun p => p.1 == userId)).map (fun p => p.2)

/-- `prisma.videoJob.create`. -/
def DB.insertJob (db : DB) (j : VideoJob) : DB :=
  { db with jobs := db.jobs ++ [j] }

/-- `prisma.blogPost.create`. -/
def DB.insertBlogPost (db : DB) (b : BlogPost) : DB :=
  { db with blogPosts := db.blogPosts ++ [b] }

/-- `prisma.videoJob.update (where: id, data: patch)`. -/
def DB.updateJob (db : DB) (id : String) (f : VideoJob → VideoJob) : DB :=
  { db with jobs := db.jobs.map (fun j => if j.id == id then f j else j) }

/-- `prisma.blogPost.update (where: id, data: patch)`. -/
def DB.updateBlogPost (db : DB) (id : String) (f : BlogPost → BlogPost) : DB :=
  { db with blogPosts :=
      db.blogPosts.map (fun b => if b.id == id then f b else b) }

/-- The error classes of `utils/error-handler` that the embedded handlers
throw (each constructor is one `ApiError` subclass of the source). -/
inductive ApiError where
  | validationError (msg : String)
  | authenticationError (msg : String)
  | notFoundError (resource : String) (identifier : Option String)
  | externalServiceError (service : String) (msg : String)
  | videoProcessingError (msg : String)
deriving Repr, DecidableEq

/-- The result of `generateBlogPost` in `src/lib/openai.ts` on success
(`seoMetadata` kept as an opaque payload). -/
structure BlogResult where
  title : String
  content : String
  wordCount : Nat
  seoMetadata : String
deriving Repr, DecidableEq

/-- Outcome of one `generateBlogPost` remote call: `src/lib/openai.ts`
classifies every failure as `ExternalServiceError` with service
"OpenAI", so a failing double carries only the message. -/
def GenOutcome := Except String BlogResult

/-- Response of the blog-generate POST handler: either the
already-existing blog post (idempotent early return, HTTP 200) or a newly
created one (HTTP 201). -/
inductive GenerateBlogResponse where
  | existing (blogId title content : String) (wordCount : Nat) (status : String)
  | created (blogId title content : String) (wordCount : Nat) (seoMetadata : String)
deriving Repr, DecidableEq

/-- The `title` field of either response shape. -/
def GenerateBlogResponse.titleOf : GenerateBlogResponse → String
  | .existing _ t _ _ _ => t
  | .created _ t _ _ _ => t

/-- The `content` field of either response shape. -/
def GenerateBlogResponse.contentOf : GenerateBlogResponse → String
  | .existing _ _ c _ _ => c
  | .created _ _ c _ _ => c

/-- What one run of a handler leaves behind: the HTTP-level result, the
store after the request, and how many times the generation stage client
was invoked. -/
structure GenerateOutcome where
  result : Except ApiError GenerateBlogResponse
  db : DB
  genCalls : Nat
deriving Repr

/-- Tail of the blog-generate handler after `finalTranscript` is
resolved: the empty/whitespace check, the 500,000-character bound, the
`generateBlogPost` call, `prisma.blogPost.create`, and the
`prisma.videoJob.update` that mirrors the content onto the job. -/
def generateAndPersist (db : DB) (finalTranscript : String)
    (jobIdOpt : Option String) (userIdToUse : String)
    (gen : GenOutcome) (freshId : String) : GenerateOutcome :=
  if finalTranscript == "" || (jsTrim finalTranscript).length == 0 then
    ⟨.error (.validationError "Transcript cannot be empty"), db, 0⟩
  else if 500000 < finalTranscript.length then
    ⟨.error (.validationError "Transcript is too long (max 500,000 characters)"), db, 0⟩
  else
    match gen with
    | .error msg => ⟨.error (.externalServiceError "OpenAI" msg), db, 1⟩
    | .ok blogResult =>
      let post : BlogPost :=
        { id := freshId
          userId := some userIdToUse
          videoJobId := jobIdOpt.getD "manual"
          title := blogResult.title
          content := blogResult.content
          wordCount := blogResult.wordCount
          status := "draft"
          wordpressPostId := none }
      let db1 := db.insertBlogPost post
      let db2 :=
        match jobIdOpt with
        | some jid =>
          db1.updateJob jid (fun j => { j with blogPost := some blogResult.content })
        | none => db1
      ⟨.ok (.created freshId blogResult.title blogResult.content
          blogResult.wordCount blogResult.seoMetadata), db2, 1⟩

/-- The blog-generate POST handler (run-generate): authentication is
assumed resolved to `userId`; `gen` is the generation stage double and
`freshId` the id Prisma would mint for a created record. -/
def blogGeneratePOST (db : DB) (userId : String)
    (jobId transcript : Option String)
    (gen : GenOutcome) (freshId : String) : GenerateOutcome :=
  if truthy jobId = false && truthy transcript = false then
    ⟨.error (.validationError "Either jobId or transcript must be provided"), db, 0⟩
  else if truthy jobId then
    let jid := jobId.getD ""
    match db.findJob jid with
    | none => ⟨.error (.notFoundError "VideoJob" (some jid)), db, 0⟩
    | some videoJob =>
      if !(userId == videoJob.userId) then
        ⟨.error (.authenticationError
            "You do not have permission to access this resource"), db, 0⟩
      else
        match (db.blogPostsOf jid).head? with
        | some existingBlog =>
          ⟨.ok (.existing existingBlog.id existingBlog.title existingBlog.content
              existingBlog.wordCount existingBlog.status), db, 0⟩
        | none =>
          if truthy videoJob.transcription = false then
            ⟨.error (.validationError "No transcript available for this job"), db, 0⟩
          else
            generateAndPersist db (videoJob.transcription.getD "") (some jid)
              videoJob.userId gen freshId
  else
    generateAndPersist db (transcript.getD "") none userId gen freshId

/-- A successful WordPress publish result (`publishResult.id` and
`publishResult.url`). -/
structure PubResult where
  id : Nat
  url : String
deriving Repr, DecidableEq

/-- JS `parseInt` on the strings this code stores (decimal digit
strings): `none` models NaN. -/
def parseIntOpt (s : String) : Option Nat := s.toNat?

/-- The WordPress config object accepted in a request body, before the
handler validates that all three fields are present and nonempty. -/
structure WPConfigInput where
  siteUrl : Option String
  username : Option String
  appPassword : Option String
deriving Repr, DecidableEq

/-- The stage doubles one wordpress-publish request consults:
`getWordPressClientForUser` (error = the helper threw; `false` = it
returned a null client) and `publishBlogPostForUser` (error = it threw;
`none` = it returned a falsy result). -/
structure PublishDoubles where
  connect : Except ApiError Bool
  pub : Except ApiError (Option PubResult)

/-- Response of the wordpress-publish POST handler: the idempotent early
return (`already`, HTTP 200) or a fresh publish (`created`, HTTP 201). -/
inductive PublishResponse where
  | already (blogId : String) (wordpressPostId : Option Nat)
  | created (blogId : String) (wordpressPostId : Nat) (url : String) (status : String)
deriving Repr, DecidableEq

/-- What one wordpress-publish request leaves behind, with call counts
for the connect helper and the remote publish helper. -/
structure PublishOutcome where
  result : Except ApiError PublishResponse
  db : DB
  connectCalls : Nat
  publishCalls : Nat
deriving Repr

/-- Config resolution of the publish route: a provided body config must
have all three fields, otherwise the route falls back to the caller's
stored `WordPressConfig` row. -/
def resolveWpConfig (db : DB) (userId : String)
    (wordpressConfig : Option WPConfigInput) : Except ApiError WPConfig :=
  match wordpressConfig with
  | some cfg =>
    if truthy cfg.siteUrl = false || truthy cfg.username = false
        || truthy cfg.appPassword = false then
      .error (.validationError
        "WordPress config must include siteUrl, username, and appPassword")
    else
      .ok { siteUrl := cfg.siteUrl.getD "", username := cfg.username.getD ""
            appPassword := cfg.appPassword.getD "" }
  | none =>
    match db.findWpConfig userId with
    | none =>
      .error (.validationError
        "No WordPress configuration found. Please configure WordPress first.")
    | some c => .ok c

/-- The wordpress-publish POST handler (run-publish). -/
def wordpressPublishPOST (db : DB) (userId : String) (blogId : Option String)
    (wordpressConfig : Option WPConfigInput) (d : PublishDoubles) : PublishOutcome :=
  if truthy blogId = false then
    ⟨.error (.validationError "Blog ID is required"), db, 0, 0⟩
  else
    let bid := blogId.getD ""
    match db.findBlogPost bid with
    | none => ⟨.error (.notFoundError "BlogPost" (some bid)), db, 0, 0⟩
    | some blogPost =>
      if !(blogPost.userId == some userId) then
        ⟨.error (.authenticationError
            "You do not have permission to access this resource"), db, 0, 0⟩
      else if truthy blogPost.wordpressPostId then
        ⟨.ok (.already bid (parseIntOpt (blogPost.wordpressPostId.getD ""))), db, 0, 0⟩
      else
        match resolveWpConfig db userId wordpressConfig with
        | .error e => ⟨.error e, db, 0, 0⟩
        | .ok _wpConfig =>
          match d.connect with
          | .error e => ⟨.error e, db, 1, 0⟩
          | .ok false =>
            ⟨.error (.authenticationError
                "Failed to connect to WordPress. Please check your credentials."),
              db, 1, 0⟩
          | .ok true =>
            match d.pub with
            | .error e => ⟨.error e, db, 1, 1⟩
            | .ok none =>
              ⟨.error (.externalServiceError "WORDPRESS" "Failed to publish post"),
                db, 1, 1⟩
            | .ok (some publishResult) =>
              let db1 := db.updateBlogPost bid (fun b =>
                { b with wordpressPostId := some (toString publishResult.id)
                         status := "published" })
              ⟨.ok (.created bid publishResult.id publishResult.url "published"),
                db1, 1, 1⟩

/-- A sequence of wordpress-publish requests for the same caller and blog
id, one double per request; accumulates the store, the total number of
remote publish calls, and the per-request results. -/
def publishMany (db : DB) (userId : String) (blogId : Option String)
    (wordpressConfig : Option WPConfigInput) :
    List PublishDoubles → DB × Nat × List (Except ApiError PublishResponse)
  | [] => (db, 0, [])
  | d :: ds =>
    let o := wordpressPublishPOST db userId blogId wordpressConfig d
    let rest := publishMany o.db userId blogId wordpressConfig ds
    (rest.1, o.publishCalls + rest.2.1, o.result :: rest.2.2)

/-- The remote stage interactions of the pipeline, in the order the
composed workflow performs them. -/
inductive StageEvent where
  | fetchVideo
  | transcribe
  | generate
  | publish
deriving Repr, DecidableEq

/-- Doubles for the composed workflow: one outcome per remote stage
client in program order.  `pub` mirrors `publishBlogPostForUser` (error =
threw, `none` = falsy result). -/
structure WorkflowDoubles where
  fetchVideo : Except ApiError Unit
  transcribe : Except ApiError String
  generate : GenOutcome
  pub : Except ApiError (Option PubResult)

/-- Success payload of the workflow route (the fields the claims
observe). -/
structure WorkflowResponse where
  jobId : String
  status : String
  transcript : String
  blogId : String
  blogTitle : String
  blogStatus : String
  wordpress : Option PubResult
deriving Repr, DecidableEq

/-- What one workflow request leaves behind, plus the trace of remote
stage clients that were actually consulted, in order. -/
structure WorkflowOutcome where
  result : Except ApiError WorkflowResponse
  db : DB
  trace : List StageEvent
deriving Repr

/-- `prisma.videoJob.create (data: videoUrl, status: 'processing',
userId: 'system')` — the job-creation step shared by the videos/process
and workflow/process routes. -/
def createVideoJob (url : String) (jobFreshId : String) : VideoJob :=
  { id := jobFreshId, userId := "system", videoUrl := url
    status := "processing", transcription := none, blogPost := none }

/-- The catch-all failure branch of the workflow route: mark the job
failed, then rethrow. -/
def DB.failJob (db : DB) (jobId : String) : DB :=
  db.updateJob jobId (fun j => { j with status := "failed" })

/-- The workflow-process POST handler (run-complete-workflow): validates
the URL, creates the job in status "processing", then runs
fetch → transcribe → generate and, if requested and a config resolves,
publish; the inner catch marks the job failed and rethrows. -/
def workflowProcessPOST (db : DB) (videoUrl : Option String)
    (wordpressConfig : Option WPConfigInput) (publishToWordPress : Bool)
    (d : WorkflowDoubles) (jobFreshId blogFreshId : String) : WorkflowOutcome :=
  if truthy videoUrl = false then
    ⟨.error (.validationError "Video URL is required"), db, []⟩
  else
    let url := videoUrl.getD ""
    if isValidVideoUrl url = false then
      ⟨.error (.validationError "Invalid video URL format"), db, []⟩
    else
      let db0 := db.insertJob (createVideoJob url jobFreshId)
      match d.fetchVideo with
      | .error e => ⟨.error e, db0.failJob jobFreshId, [.fetchVideo]⟩
      | .ok _ =>
        match d.transcribe with
        | .error e => ⟨.error e, db0.failJob jobFreshId, [.fetchVideo, .transcribe]⟩
        | .ok transcriptText =>
          let db1 := db0.updateJob jobFreshId
            (fun j => { j with transcription := some transcriptText })
          match d.generate with
          | .error msg =>
            ⟨.error (.externalServiceError "OpenAI" msg), db1.failJob jobFreshId,
              [.fetchVideo, .transcribe, .generate]⟩
          | .ok blogResult =>
            let post : BlogPost :=
              { id := blogFreshId, userId := none, videoJobId := jobFreshId
                title := blogResult.title, content := blogResult.content
                wordCount := blogResult.wordCount, status := "draft"
                wordpressPostId := none }
            let db2 := db1.insertBlogPost post
            let db3 := db2.updateJob jobFreshId (fun j =>
              { j with blogPost := some blogResult.content, status := "completed" })
            let okResponse : Option PubResult → WorkflowResponse := fun wp =>
              { jobId := jobFreshId, status := "completed"
                transcript := transcriptText, blogId := blogFreshId
                blogTitle := blogResult.title
                blogStatus := if wp.isSome then "published" else "draft"
                wordpress := wp }
            if publishToWordPress then
              let wpConfig? : Option WPConfig :=
                match wordpressConfig with
                | some cfg =>
                  some { siteUrl := cfg.siteUrl.getD ""
                         username := cfg.username.getD ""
                         appPassword := cfg.appPassword.getD "" }
                | none => db3.findWpConfig "system"
              match wpConfig? with
              | none =>
                ⟨.ok (okResponse none), db3, [.fetchVideo, .transcribe, .generate]⟩
              | some _ =>
                match d.pub with
                | .error e =>
                  ⟨.error e, db3.failJob jobFreshId,
                    [.fetchVideo, .transcribe, .generate, .publish]⟩
                | .ok none =>
                  ⟨.ok (okResponse none), db3,
                    [.fetchVideo, .transcribe, .generate, .publish]⟩
                | .ok (some wordpressResult) =>
                  let db4 := db3.updateBlogPost blogFreshId (fun b =>
                    { b with wordpressPostId := some (toString wordpressResult.id)
                             status := "published" })
                  ⟨.ok (okResponse (some wordpressResult)), db4,
                    [.fetchVideo, .transcribe, .generate, .publish]⟩
            else
              ⟨.ok (okResponse none), db3, [.fetchVideo, .transcribe, .generate]⟩

/-- Doubles for the per-step videos/process route. -/
structure VideosDoubles where
  fetchVideo : Except ApiError Unit
  transcribe : Except ApiError String

/-- Success payload of the videos/process route. -/
structure VideosResponse where
  jobId : String
  status : String
  videoUrl : String
  transcript : String
deriving Repr, DecidableEq

/-- What one videos/process request leaves behind. -/
structure VideosOutcome where
  result : Except ApiError VideosResponse
  db : DB
  trace : List StageEvent
deriving Repr

/-- The catch of the videos/process route: an `ExternalServiceError` is
rethrown as-is, anything else is wrapped as
`VideoProcessingError("Failed to process video")`. -/
def reclassifyVideosError : ApiError → ApiError
  | .externalServiceError s m => .externalServiceError s m
  | _ => .videoProcessingError "Failed to process video"

/-- The videos/process POST handler (run-fetch-transcribe): validates the
URL (rejecting an invalid one with `VideoProcessingError`), creates the
job in status "processing", downloads and transcribes, and on success
persists transcript plus status "completed" in one update; the inner
catch marks the job failed and rethrows through `reclassifyVideosError`. -/
def videosProcessPOST (db : DB) (videoUrl : Option String)
    (d : VideosDoubles) (jobFreshId : String) : VideosOutcome :=
  if truthy videoUrl = false then
    ⟨.error (.validationError "Video URL is required"), db, []⟩
  else
    let url := videoUrl.getD ""
    if 2000 < url.length then
      ⟨.error (.validationError "Invalid video URL format"), db, []⟩
    else if isValidVideoUrl url = false then
      ⟨.error (.videoProcessingError "Invalid or unsupported video URL"), db, []⟩
    else
      let db0 := db.insertJob (createVideoJob url jobFreshId)
      match d.fetchVideo with
      | .error e =>
        ⟨.error (reclassifyVideosError e), db0.failJob jobFreshId, [.fetchVideo]⟩
      | .ok _ =>
        match d.transcribe with
        | .error e =>
          ⟨.error (reclassifyVideosError e), db0.failJob jobFreshId,
            [.fetchVideo, .transcribe]⟩
        | .ok transcriptText =>
          let db1 := db0.updateJob jobFreshId (fun j =>
            { j with status := "completed", transcription := some transcriptText })
          ⟨.ok { jobId := jobFreshId, status := "completed", videoUrl := url
                 transcript := transcriptText }, db1,
            [.fetchVideo, .transcribe]⟩

/-- The blog sub-object of the job-status response. -/
structure StatusBlogInfo where
  id : String
  title : String
  content : String
  wordCount : Nat
  status : String
  wordpressPostId : Option String
deriving Repr, DecidableEq

/-- Success payload of the job-status GET handlers. -/
structure StatusResponse where
  jobId : String
  videoUrl : String
  status : String
  transcription : Option String
  blog : Option StatusBlogInfo
deriving Repr, DecidableEq

/-- The blog sub-object: the latest (`orderBy createdAt desc, take 1`)
blog post of the job, i.e. the most recently inserted one. -/
def statusBlogOf (db : DB) (jobId : String) : Option StatusBlogInfo :=
  (db.blogPostsOf jobId).getLast?.map (fun b =>
    { id := b.id, title := b.title, content := b.content
      wordCount := b.wordCount, status := b.status
      wordpressPostId := b.wordpressPostId })

/-- The unauthenticated job-status GET handler.  The second component
counts store lookups performed (`prisma.videoJob.findUnique` calls). -/
def jobStatusGET (db : DB) (jobId : String) :
    Except ApiError StatusResponse × Nat :=
  if jobId == "" || !(jobId.length == 25) then
    (.error (.validationError "Invalid job ID format"), 0)
  else
    match db.findJob jobId with
    | none => (.error (.notFoundError "VideoJob" (some jobId)), 1)
    | some videoJob =>
      (.ok { jobId := videoJob.id, videoUrl := videoJob.videoUrl
             status := videoJob.status, transcription := videoJob.transcription
             blog := statusBlogOf db jobId }, 1)

/-- The authenticated job-status GET handler: same shape, with an
ownership check between the lookup and the response. -/
def jobStatusAuthGET (db : DB) (userId : String) (jobId : String) :
    Except ApiError StatusResponse × Nat :=
  if jobId == "" || !(jobId.length == 25) then
    (.error (.validationError "Invalid job ID format"), 0)
  else
    match db.findJob jobId with
    | none => (.error (.notFoundError "VideoJob" (some jobId)), 1)
    | some videoJob =>
      if !(userId == videoJob.userId) then
        (.error (.authenticationError
            "You do not have permission to access this resource"), 1)
      else
        (.ok { jobId := videoJob.id, videoUrl := videoJob.videoUrl
               status := videoJob.status, transcription := videoJob.transcription
               blog := statusBlogOf db jobId }, 1)

/-- The slice of `JobStatusResponse` the `useJobStatus` hook reads:
`data.job.status`, `data.job.transcription`, and the top-level
`data.blogPost` (of which only presence and `status` matter here). -/
structure PollJobData where
  status : String
  transcription : Option String
deriving Repr, DecidableEq

/-- The top-level blog post of the polling payload. -/
structure PollBlogData where
  status : String
deriving Repr, DecidableEq

/-- One polling payload (`data` in the hook); `none` is the initial
null. -/
structure PollData where
  job : PollJobData
  blogPost : Option PollBlogData
deriving Repr, DecidableEq

/-- The `currentStep` derivation of the `useJobStatus` hook, verbatim
nested conditionals over the payload. -/
def currentStep (data : Option PollData) : String :=
  match data with
  | none => "fetching"
  | some d =>
    if d.job.status == "pending" then "fetching"
    else if d.job.status == "processing" then
      if truthy d.job.transcription && !d.blogPost.isSome then "transcribing"
      else if d.blogPost.isSome then "generating"
      else "fetching"
    else if d.job.status == "completed" then "completed"
    else "fetching"

/-- Default polling cadence of the hook, in milliseconds. -/
def pollIntervalDefault : Nat := 3000

/-- Default maximum number of failed query attempts. -/
def maxRetriesDefault : Nat := 10

/-- What one status query returns to the hook: a payload with a job
status, or a fetch error. -/
inductive FetchOutcome where
  | ok (status : String)
  | err
deriving Repr, DecidableEq

/-- The statuses on which `fetchStatus` stops polling. -/
def isTerminalStatus (s : String) : Bool :=
  s == "completed" || s == "failed"

/-- One `fetchStatus` invocation, acting on (timer-active, retryCount):
a successful query stops the timer when the status is terminal; a failed
query increments `retryCount` and stops the timer once it reaches
`maxRetries`. -/
def pollStep (maxRetries : Nat) (o : FetchOutcome) :
    Bool × Nat → Bool × Nat
  | (_, r) =>
    match o with
    | .ok s => (!(isTerminalStatus s), r)
    | .err => (decide (r + 1 < maxRetries), r + 1)

/-- The hook state just before query number `k` (query 0 is the
immediate fetch `startPolling` issues; query `k` is the tick at time
`k · pollInterval`): whether the timer is still active and the current
`retryCount`.  `resp k` is what the status endpoint returns to query
`k`.  Once the timer is stopped, no further query runs and the state is
frozen. -/
def pollState (maxRetries : Nat) (resp : Nat → FetchOutcome) :
    Nat → Bool × Nat
  | 0 => (true, 0)
  | k + 1 =>
    let st := pollState maxRetries resp k
    if st.1 then pollStep maxRetries (resp k) st else st

/-- Query `k` is issued exactly when the timer is still active before
it. -/
def queryIssued (maxRetries : Nat) (resp : Nat → FetchOutcome) (k : Nat) : Bool :=
  (pollState maxRetries resp k).1

/-- Number of status queries issued among the first `n` scheduled
slots. -/
def queriesIssued (maxRetries : Nat) (resp : Nat → FetchOutcome) (n : Nat) : Nat :=
  (List.range n).countP (fun k => queryIssued maxRetries resp k)

/-- The scenario endpoint of the polling claim: a non-terminal step for
the first three queries, `completed` from the fourth on. -/
def scenarioResp : Nat → FetchOutcome :=
  fun k => if k < 3 then .ok "generating" else .ok "completed"

/-- An endpoint whose failures are never consecutive: queries at even
indices fail, queries at odd indices return a non-terminal step. -/
def alternatingResp : Nat → FetchOutcome :=
  fun k => if k % 2 == 0 then .err else .ok "generating"

/-! ## Concrete fixtures used to evaluate the theorems -/

/-- A draft blog post owned by user "u1". -/
def draftPostFixture : BlogPost :=
  { id := "blog1", userId := some "u1", videoJobId := "job1", title := "T"
    content := "C", wordCount := 1, status := "draft", wordpressPostId := none }

/-- A stored WordPress configuration for user "u1". -/
def wpConfigFixture : WPConfig :=
  { siteUrl := "https://wp.example.com", username := "admin", appPassword := "pw" }

/-- A store holding one draft post and one WordPress config. -/
def publishStoreFixture : DB :=
  { jobs := [], blogPosts := [draftPostFixture], wpConfigs := [("u1", wpConfigFixture)] }

/-- Publish doubles for a healthy remote that assigns post id `n`. -/
def publishOkDoubles (n : Nat) : PublishDoubles :=
  { connect := .ok true, pub := .ok (some { id := n, url := "https://wp.example.com/p" }) }

/-- Publish doubles for an unreachable remote. -/
def publishDownDoubles : PublishDoubles :=
  { connect := .error (.authenticationError "down")
    pub := .error (.authenticationError "down") }

/-- The empty store. -/
def emptyStore : DB := { jobs := [], blogPosts := [], wpConfigs := [] }

/-- Videos/process doubles whose fetch step fails with a download
error. -/
def fetchFailDoubles : VideosDoubles :=
  { fetchVideo := .error (.videoProcessingError "download failed")
    transcribe := .ok "t" }

/-- Videos/process doubles whose transcription step fails with a Deepgram
service error. -/
def transcribeFailDoubles : VideosDoubles :=
  { fetchVideo := .ok (), transcribe := .error (.externalServiceError "Deepgram" "boom") }

/-- Healthy videos/process doubles. -/
def videosOkDoubles : VideosDoubles :=
  { fetchVideo := .ok (), transcribe := .ok "hello world" }

/-- The canonical stage order of the composed workflow. -/
def stageOrder : List StageEvent :=
  [.fetchVideo, .transcribe, .generate, .publish]

/-! ## Store lemmas -/

/-- `find?` by a key commutes with mapping a key-preserving function. -/
theorem find?_map_key_preserving {α : Type} (key : α → String) (g : α → α)
    (hg : ∀ a, key (g a) = key a) (i : String) (l : List α) :
    (l.map g).find? (fun a => key a == i) =
      (l.find? (fun a => key a == i)).map g := by
  induction l with
  | nil => rfl
  | cons a l ih =>
    simp only [List.map_cons, List.find?, hg]
    cases h : key a == i <;> simp [h, ih]

/-- Updating one job rewrites the result of a later lookup pointwise. -/
theorem DB.findJob_updateJob (db : DB) (uid : String) (f : VideoJob → VideoJob)
    (hf : ∀ j, (f j).id = j.id) (i : String) :
    (db.updateJob uid f).findJob i =
      (db.findJob i).map (fun j => if j.id == uid then f j else j) := by
  unfold DB.findJob DB.updateJob
  exact find?_map_key_preserving VideoJob.id _
    (fun j => by by_cases h : j.id == uid <;> simp [h, hf]) i db.jobs

/-- Updating one blog post rewrites the result of a later lookup
pointwise. -/
theorem DB.findBlogPost_updateBlogPost (db : DB) (uid : String)
    (f : BlogPost → BlogPost) (hf : ∀ b, (f b).id = b.id) (i : String) :
    (db.updateBlogPost uid f).findBlogPost i =
      (db.findBlogPost i).map (fun b => if b.id == uid then f b else b) := by
  unfold DB.findBlogPost DB.updateBlogPost
  exact find?_map_key_preserving BlogPost.id _
    (fun b => by by_cases h : b.id == uid <;> simp [h, hf]) i db.blogPosts

/-- Inserting a blog post appends it to the owning job's relation. -/
theorem DB.blogPostsOf_insertBlogPost (db : DB) (b : BlogPost) (jid : String) :
    (db.insertBlogPost b).blogPostsOf jid =
      db.blogPostsOf jid ++ (if b.videoJobId == jid then [b] else []) := by
  unfold DB.blogPostsOf DB.insertBlogPost
  cases h : b.videoJobId == jid <;> simp [List.filter_append, h]

/-- Job updates do not change the blog-post table. -/
theorem DB.blogPostsOf_updateJob (db : DB) (uid : String)
    (f : VideoJob → VideoJob) (jid : String) :
    (db.updateJob uid f).blogPostsOf jid = db.blogPostsOf jid := rfl

/-- Blog-post inserts do not change the job table. -/
theorem DB.findJob_insertBlogPost (db : DB) (b : BlogPost) (i : String) :
    (db.insertBlogPost b).findJob i = db.findJob i := rfl

/-- Blog-post updates do not change the job table. -/
theorem DB.findJob_updateBlogPost (db : DB) (uid : String)
    (f : BlogPost → BlogPost) (i : String) :
    (db.updateBlogPost uid f).findJob i = db.findJob i := rfl

/-- Job inserts do not change the config table. -/
theorem DB.findWpConfig_insertJob (db : DB) (j : VideoJob) (u : String) :
    (db.insertJob j).findWpConfig u = db.findWpConfig u := rfl

/-- Job updates do not change the config table. -/
theorem DB.findWpConfig_updateJob (db : DB) (id : String)
    (f : VideoJob → VideoJob) (u : String) :
    (db.updateJob id f).findWpConfig u = db.findWpConfig u := rfl

/-- Blog-post inserts do not change the config table. -/
theorem DB.findWpConfig_insertBlogPost (db : DB) (b : BlogPost) (u : String) :
    (db.insertBlogPost b).findWpConfig u = db.findWpConfig u := rfl

/-! ## Platform-function lemmas -/

/-- `Nat.toDigitsCore` never returns an empty digit list when it has fuel
or a nonempty accumulator. -/
theorem toDigitsCore_ne_nil (b fuel n : Nat) (ds : List Char)
    (h : ds ≠ [] ∨ 0 < fuel) : Nat.toDigitsCore b fuel n ds ≠ [] := by
  induction fuel generalizing n ds with
  | zero =>
    simp only [Nat.toDigitsCore]
    rcases h with h | h
    · exact h
    · omega
  | succ f ih =>
    simp only [Nat.toDigitsCore]
    split
    · simp
    · exact ih _ _ (Or.inl (by simp))

/-- The decimal rendering of a natural number is never the empty
string. -/
theorem toString_nat_ne_empty (n : Nat) : (toString n : String) ≠ "" := by
  show Nat.repr n ≠ ""
  unfold Nat.repr
  intro hc
  have hd : Nat.toDigits 10 n = [] := by
    have := congrArg String.data hc
    simpa [List.asString] using this
  exact toDigitsCore_ne_nil 10 (n+1) n [] (Or.inr (Nat.succ_pos n))
    (by simpa [Nat.toDigits] using hd)

/-- A rendered natural number is a truthy string. -/
theorem truthy_toString_nat (n : Nat) : truthy (some (toString n)) = true := by
  simp only [truthy, Bool.not_eq_true']
  exact beq_eq_false_iff_ne.mpr (toString_nat_ne_empty n)

/-- `dropWhile` keeps a replicated list whose element fails the
predicate. -/
theorem dropWhile_replicate_of_neg {α : Type} (p : α → Bool) (c : α)
    (h : p c = false) (n : Nat) :
    (List.replicate n c).dropWhile p = List.replicate n c := by
  cases n <;> simp [List.replicate_succ, List.dropWhile, h]

/-- JS `trim` keeps a string of repeated non-whitespace characters. -/
theorem jsTrim_replicate (n : Nat) (c : Char) (h : c.isWhitespace = false) :
    jsTrim (String.mk (List.replicate n c)) = String.mk (List.replicate n c) := by
  simp [jsTrim, String.toList, dropWhile_replicate_of_neg _ _ h,
    List.reverse_replicate]

/-- A nonempty repeated string is truthy. -/
theorem truthy_mk_replicate_succ (n : Nat) (c : Char) :
    truthy (some (String.mk (List.replicate (n+1) c))) = true := by
  simp only [truthy, Bool.not_eq_true']
  apply beq_eq_false_iff_ne.mpr
  intro h
  have := congrArg String.data h
  simp [List.replicate_succ] at this

/-- The length of a repeated string. -/
theorem length_mk_replicate (n : Nat) (c : Char) :
    (String.mk (List.replicate n c)).length = n := by
  simp [String.length]

/-! ## C3: the status projection -/

/-- C3 counterexample: the hook's `currentStep` derivation maps a job
whose stageState is `failed` to "fetching", not to "failed", so failure
does not take precedence as the claim states. -/
theorem c3_failed_maps_to_fetching :
    currentStep (some { job := { status := "failed", transcription := some "t" },
                        blogPost := some { status := "draft" } }) = "fetching" ∧
    currentStep (some { job := { status := "failed", transcription := some "t" },
                        blogPost := some { status := "draft" } }) ≠ "failed" := by
  exact ⟨rfl, by decide⟩

/-- C3 amended: `currentStep` is a total function of stageState,
transcript-presence and artifact-presence alone (publishState is never
consulted), always yielding exactly one of "fetching", "transcribing",
"generating", "completed"; but a `failed` stageState yields "fetching"
(the `ProcessingStep` type has no failed member), not "failed". -/
theorem c3_projection_total (d d' : PollData)
    (hs : d.job.status = d'.job.status)
    (ht : truthy d.job.transcription = truthy d'.job.transcription)
    (hb : d.blogPost.isSome = d'.blogPost.isSome) :
    currentStep (some d) = currentStep (some d') ∧
    currentStep (some d) ∈ ["fetching", "transcribing", "generating", "completed"] ∧
    (d.job.status = "failed" → currentStep (some d) = "fetching") := by
  refine ⟨?_, ?_, ?_⟩
  · simp only [currentStep, hs, ht, hb]
  · simp only [currentStep]
    split_ifs <;> simp
  · intro h
    simp only [currentStep, h]
    rfl

/-- C3 amended, witness: two payloads for a failed job that differ in
publishState (draft vs published) and in the transcript text map to the
same step, "fetching". -/
theorem c3_projection_total_witness :
    currentStep (some { job := { status := "failed", transcription := some "t" },
                        blogPost := some { status := "draft" } }) =
      currentStep (some { job := { status := "failed", transcription := some "u" },
                          blogPost := some { status := "published" } }) ∧
    currentStep (some { job := { status := "failed", transcription := some "t" },
                        blogPost := some { status := "draft" } }) = "fetching" := by
  have h := c3_projection_total
    { job := { status := "failed", transcription := some "t" },
      blogPost := some { status := "draft" } }
    { job := { status := "failed", transcription := some "u" },
      blogPost := some { status := "published" } }
    rfl rfl rfl
  exact ⟨h.1, h.2.2 rfl⟩

/-! ## C10: job-id validation in the status endpoints -/

/-- C10: both job-status GET handlers reject any id whose length is not
25 with a `ValidationError` and perform no store lookup in that case;
consequently a response (success or `NotFoundError`) is only ever
produced for a well-formed 25-character id. -/
theorem c10_jobid_guard (db : DB) (userId jobId : String) :
    (jobId.length ≠ 25 →
      jobStatusGET db jobId =
        (.error (.validationError "Invalid job ID format"), 0) ∧
      jobStatusAuthGET db userId jobId =
        (.error (.validationError "Invalid job ID format"), 0)) ∧
    (∀ r, (jobStatusGET db jobId).1 = .ok r → jobId.length = 25) ∧
    (∀ res i, (jobStatusGET db jobId).1 = .error (.notFoundError res i) →
      jobId.length = 25) ∧
    (∀ r, (jobStatusAuthGET db userId jobId).1 = .ok r → jobId.length = 25) ∧
    (∀ res i, (jobStatusAuthGET db userId jobId).1 = .error (.notFoundError res i) →
      jobId.length = 25) := by
  by_cases h : jobId.length = 25
  · have hne : jobId ≠ "" := by
      intro hc
      rw [hc] at h
      simp [String.length] at h
    have hguard : (jobId == "" || !(jobId.length == 25)) = false := by
      simp [beq_eq_false_iff_ne.mpr hne, h]
    refine ⟨fun hc => absurd h hc, fun _ _ => h, fun _ _ _ => h,
      fun _ _ => h, fun _ _ _ => h⟩
  · have hguard : (jobId == "" || !(jobId.length == 25)) = true := by
      have : (jobId.length == 25) = false := by
        exact beq_eq_false_iff_ne.mpr h
      simp [this]
    have h1 : jobStatusGET db jobId =
        (.error (.validationError "Invalid job ID format"), 0) := by
      unfold jobStatusGET
      rw [hguard]
      rfl
    have h2 : jobStatusAuthGET db userId jobId =
        (.error (.validationError "Invalid job ID format"), 0) := by
      unfold jobStatusAuthGET
      rw [hguard]
      rfl
    refine ⟨fun _ => ⟨h1, h2⟩, ?_, ?_, ?_, ?_⟩
    · intro r hr
      rw [h1] at hr
      exact absurd hr (by simp)
    · intro res i hr
      rw [h1] at hr
      exact absurd hr (by simp)
    · intro r hr
      rw [h2] at hr
      exact absurd hr (by simp)
    · intro res i hr
      rw [h2] at hr
      exact absurd hr (by simp)

/-- C10 witness: a 5-character id is rejected with `ValidationError`
before any lookup, even when the store holds a job with that id. -/
theorem c10_jobid_guard_witness :
    jobStatusGET
      { jobs := [{ id := "job42", userId := "u1", videoUrl := "https://e.com/v.mp4",
                   status := "processing", transcription := none, blogPost := none }],
        blogPosts := [], wpConfigs := [] } "job42" =
      (.error (.validationError "Invalid job ID format"), 0) := by
  exact ((c10_jobid_guard
    { jobs := [{ id := "job42", userId := "u1", videoUrl := "https://e.com/v.mp4",
                 status := "processing", transcription := none, blogPost := none }],
      blogPosts := [], wpConfigs := [] } "u1" "job42").1 (by decide)).1

/-! ## C1: run-generate is idempotent per artifact existence -/

/-- C1: if a job already has a blog post, the blog-generate handler
returns that post's title, content, wordCount and status unchanged with
no generation-client call and no store write; and two consecutive
run-generate calls on a job with a persisted transcript return identical
title and content, the second call invoking the generation client zero
times. -/
theorem c1_generate_idempotent :
    (∀ (db : DB) (userId jid freshId : String) (j : VideoJob) (b : BlogPost)
        (transcript : Option String) (gen : GenOutcome),
      jid ≠ "" → db.findJob jid = some j → j.userId = userId →
      (db.blogPostsOf jid).head? = some b →
      blogGeneratePOST db userId (some jid) transcript gen freshId =
        ⟨.ok (.existing b.id b.title b.content b.wordCount b.status), db, 0⟩) ∧
    (∀ (db : DB) (userId jid freshId1 freshId2 : String) (j : VideoJob)
        (t2 : Option String) (r : BlogResult) (gen2 : GenOutcome),
      jid ≠ "" → db.findJob jid = some j → j.userId = userId →
      db.blogPostsOf jid = [] → truthy j.transcription = true →
      ((j.transcription.getD "") == "" ||
        (jsTrim (j.transcription.getD "")).length == 0) = false →
      ¬ 500000 < (j.transcription.getD "").length →
      (blogGeneratePOST db userId (some jid) none (.ok r) freshId1).result =
        .ok (.created freshId1 r.title r.content r.wordCount r.seoMetadata) ∧
      (blogGeneratePOST
          (blogGeneratePOST db userId (some jid) none (.ok r) freshId1).db
          userId (some jid) t2 gen2 freshId2).result =
        .ok (.existing freshId1 r.title r.content r.wordCount "draft") ∧
      (blogGeneratePOST
          (blogGeneratePOST db userId (some jid) none (.ok r) freshId1).db
          userId (some jid) t2 gen2 freshId2).genCalls = 0) := by
  have htruthy : ∀ s : String, s ≠ "" → truthy (some s) = true := by
    intro s hs
    simp [truthy, beq_eq_false_iff_ne.mpr hs]
  constructor
  · intro db userId jid freshId j b transcript gen hjid hfind hown hhead
    simp [blogGeneratePOST, htruthy jid hjid, hfind, hown, hhead]
  · intro db userId jid freshId1 freshId2 j t2 r gen2 hjid hfind hown hposts
      htr hguard hlen
    subst hown
    have hid : (j.id == jid) = true := by
      have := List.find?_some hfind
      exact this
    have hrun1 : blogGeneratePOST db j.userId (some jid) none (.ok r) freshId1 =
        ⟨.ok (.created freshId1 r.title r.content r.wordCount r.seoMetadata),
          (db.insertBlogPost
            { id := freshId1, userId := some j.userId, videoJobId := jid
              title := r.title, content := r.content, wordCount := r.wordCount
              status := "draft", wordpressPostId := none }).updateJob jid
            (fun jj => { jj with blogPost := some r.content }), 1⟩ := by
      simp [blogGeneratePOST, htruthy jid hjid, hfind, hposts,
        generateAndPersist, htr, hguard, hlen]
    refine ⟨by rw [hrun1], ?_, ?_⟩ <;>
    · rw [hrun1]
      have hfind2 : ((db.insertBlogPost
          { id := freshId1, userId := some j.userId, videoJobId := jid
            title := r.title, content := r.content, wordCount := r.wordCount
            status := "draft", wordpressPostId := none }).updateJob jid
          (fun jj => { jj with blogPost := some r.content })).findJob jid =
          some { j with blogPost := some r.content } := by
        rw [DB.findJob_updateJob
            (db.insertBlogPost
              { id := freshId1, userId := some j.userId, videoJobId := jid
                title := r.title, content := r.content, wordCount := r.wordCount
                status := "draft", wordpressPostId := none }) jid
            (fun jj => { jj with blogPost := some r.content })
            (fun jj => rfl) jid,
          DB.findJob_insertBlogPost, hfind]
        simp only [Option.map_some']
        rw [if_pos hid]
      have hposts2 : ((db.insertBlogPost
          { id := freshId1, userId := some j.userId, videoJobId := jid
            title := r.title, content := r.content, wordCount := r.wordCount
            status := "draft", wordpressPostId := none }).updateJob jid
          (fun jj => { jj with blogPost := some r.content })).blogPostsOf jid =
          [{ id := freshId1, userId := some j.userId, videoJobId := jid
             title := r.title, content := r.content, wordCount := r.wordCount
             status := "draft", wordpressPostId := none }] := by
        rw [DB.blogPostsOf_updateJob, DB.blogPostsOf_insertBlogPost, hposts]
        simp
      simp [blogGeneratePOST, htruthy jid hjid, hfind2, hposts2]

/-- C1 witness: a concrete job with transcript "hello world"; the first
call creates the post, the second returns it byte-identically with zero
generation calls. -/
theorem c1_generate_idempotent_witness :
    (blogGeneratePOST
      { jobs := [{ id := "job1", userId := "u1", videoUrl := "https://e.com/v.mp4",
                   status := "completed", transcription := some "hello world",
                   blogPost := none }],
        blogPosts := [], wpConfigs := [] }
      "u1" (some "job1") none
      (.ok { title := "Hello", content := "<p>hello</p>", wordCount := 2,
             seoMetadata := "seo" }) "blog1").result =
      .ok (.created "blog1" "Hello" "<p>hello</p>" 2 "seo") ∧
    (blogGeneratePOST
      (blogGeneratePOST
        { jobs := [{ id := "job1", userId := "u1", videoUrl := "https://e.com/v.mp4",
                     status := "completed", transcription := some "hello world",
                     blogPost := none }],
          blogPosts := [], wpConfigs := [] }
        "u1" (some "job1") none
        (.ok { title := "Hello", content := "<p>hello</p>", wordCount := 2,
               seoMetadata := "seo" }) "blog1").db
      "u1" (some "job1") none (.error "remote down") "blog2").result =
      .ok (.existing "blog1" "Hello" "<p>hello</p>" 2 "draft") := by
  have h := c1_generate_idempotent.2
    { jobs := [{ id := "job1", userId := "u1", videoUrl := "https://e.com/v.mp4",
                 status := "completed", transcription := some "hello world",
                 blogPost := none }],
      blogPosts := [], wpConfigs := [] }
    "u1" "job1" "blog1" "blog2"
    { id := "job1", userId := "u1", videoUrl := "https://e.com/v.mp4",
      status := "completed", transcription := some "hello world", blogPost := none }
    none
    { title := "Hello", content := "<p>hello</p>", wordCount := 2,
      seoMetadata := "seo" }
    (.error "remote down")
    (by decide) (by rfl) (by rfl) (by rfl) (by rfl) (by decide) (by decide)
  exact ⟨h.1, h.2.1⟩

/-! ## C7: generation failure mutates nothing -/

/-- C7: when the generation client fails, run-generate surfaces the
OpenAI `ExternalServiceError` and returns the store exactly as it was;
more generally, a request whose generation double fails never changes
the store, on any path. -/
theorem c7_generate_failure_no_write :
    (∀ (db : DB) (userId jid freshId msg : String) (j : VideoJob),
      jid ≠ "" → db.findJob jid = some j → j.userId = userId →
      db.blogPostsOf jid = [] → truthy j.transcription = true →
      ((j.transcription.getD "") == "" ||
        (jsTrim (j.transcription.getD "")).length == 0) = false →
      ¬ 500000 < (j.transcription.getD "").length →
      blogGeneratePOST db userId (some jid) none (.error msg) freshId =
        ⟨.error (.externalServiceError "OpenAI" msg), db, 1⟩) ∧
    (∀ (db : DB) (userId : String) (jobId transcript : Option String)
        (freshId msg : String),
      (blogGeneratePOST db userId jobId transcript (.error msg) freshId).db = db) := by
  constructor
  · intro db userId jid freshId msg j hjid hfind hown hposts htr hguard hlen
    subst hown
    have htruthy : truthy (some jid) = true := by
      simp [truthy, beq_eq_false_iff_ne.mpr hjid]
    simp [blogGeneratePOST, htruthy, hfind, hposts, generateAndPersist,
      htr, hguard, hlen]
  · intro db userId jobId transcript freshId msg
    unfold blogGeneratePOST
    split
    · rfl
    split
    · dsimp only
      split
      · rfl
      split
      · rfl
      split
      · rfl
      split
      · rfl
      unfold generateAndPersist
      split
      · rfl
      split
      · rfl
      rfl
    · unfold generateAndPersist
      split
      · rfl
      split
      · rfl
      rfl

/-- C7 witness: with the generation double failing with message "remote
down", the handler surfaces the OpenAI service error, makes exactly one
generation call, and leaves the one-job store untouched. -/
theorem c7_generate_failure_no_write_witness :
    blogGeneratePOST
      { jobs := [{ id := "job1", userId := "u1", videoUrl := "https://e.com/v.mp4",
                   status := "completed", transcription := some "hello world",
                   blogPost := none }],
        blogPosts := [], wpConfigs := [] }
      "u1" (some "job1") none (.error "remote down") "blog1" =
      ⟨.error (.externalServiceError "OpenAI" "remote down"),
        { jobs := [{ id := "job1", userId := "u1", videoUrl := "https://e.com/v.mp4",
                     status := "completed", transcription := some "hello world",
                     blogPost := none }],
          blogPosts := [], wpConfigs := [] }, 1⟩ := by
  exact c7_generate_failure_no_write.1
    { jobs := [{ id := "job1", userId := "u1", videoUrl := "https://e.com/v.mp4",
                 status := "completed", transcription := some "hello world",
                 blogPost := none }],
      blogPosts := [], wpConfigs := [] }
    "u1" "job1" "blog1" "remote down"
    { id := "job1", userId := "u1", videoUrl := "https://e.com/v.mp4",
      status := "completed", transcription := some "hello world", blogPost := none }
    (by decide) (by rfl) (by rfl) (by rfl) (by rfl) (by decide) (by decide)

/-! ## C8: transcript bounds in run-generate -/

/-- C8: run-generate rejects a transcript longer than 500,000 characters
with a `ValidationError`, rejects a whitespace-only transcript with a
`ValidationError`, and in both cases invokes the generation client zero
times and leaves the store unchanged; this holds on the inline-transcript
path and on the job path with a persisted transcript. -/
theorem c8_transcript_bounds :
    (∀ (db : DB) (userId t : String) (gen : GenOutcome) (freshId : String),
      truthy (some t) = true → 500000 < t.length →
      ∃ m, blogGeneratePOST db userId none (some t) gen freshId =
        ⟨.error (.validationError m), db, 0⟩) ∧
    (∀ (db : DB) (userId t : String) (gen : GenOutcome) (freshId : String),
      truthy (some t) = true → (jsTrim t).length = 0 →
      blogGeneratePOST db userId none (some t) gen freshId =
        ⟨.error (.validationError "Transcript cannot be empty"), db, 0⟩) ∧
    (∀ (db : DB) (userId jid freshId : String) (j : VideoJob) (gen : GenOutcome),
      jid ≠ "" → db.findJob jid = some j → j.userId = userId →
      db.blogPostsOf jid = [] → truthy j.transcription = true →
      500000 < (j.transcription.getD "").length →
      ∃ m, blogGeneratePOST db userId (some jid) none gen freshId =
        ⟨.error (.validationError m), db, 0⟩) := by
  have hinline : ∀ (db : DB) (userId t : String) (gen : GenOutcome)
      (freshId : String), truthy (some t) = true →
      blogGeneratePOST db userId none (some t) gen freshId =
        generateAndPersist db t none userId gen freshId := by
    intro db userId t gen freshId ht
    simp [blogGeneratePOST, ht, truthy]
    intro hc
    subst hc
    simp [truthy] at ht
  have hbound : ∀ (db : DB) (t userIdToUse : String) (jobIdOpt : Option String)
      (gen : GenOutcome) (freshId : String), 500000 < t.length →
      ∃ m, generateAndPersist db t jobIdOpt userIdToUse gen freshId =
        ⟨.error (.validationError m), db, 0⟩ := by
    intro db t userIdToUse jobIdOpt gen freshId hlen
    by_cases hg : (t == "" || (jsTrim t).length == 0) = true
    · exact ⟨"Transcript cannot be empty", by simp [generateAndPersist, hg]⟩
    · refine ⟨"Transcript is too long (max 500,000 characters)", ?_⟩
      unfold generateAndPersist
      rw [if_neg (by simpa using hg), if_pos hlen]
  refine ⟨?_, ?_, ?_⟩
  · intro db userId t gen freshId ht hlen
    rw [hinline db userId t gen freshId ht]
    exact hbound db t userId none gen freshId hlen
  · intro db userId t gen freshId ht hws
    rw [hinline db userId t gen freshId ht]
    unfold generateAndPersist
    rw [if_pos (by simp [hws])]
  · intro db userId jid freshId j gen hjid hfind hown hposts htr hlen
    subst hown
    have htruthy : truthy (some jid) = true := by
      simp [truthy, beq_eq_false_iff_ne.mpr hjid]
    have hpath : blogGeneratePOST db j.userId (some jid) none gen freshId =
        generateAndPersist db (j.transcription.getD "") (some jid)
          j.userId gen freshId := by
      simp [blogGeneratePOST, htruthy, hfind, hposts, htr]
    rw [hpath]
    exact hbound db (j.transcription.getD "") j.userId (some jid) gen freshId hlen

/-- C8 witness: a 500,001-character transcript on the inline path is
rejected with a `ValidationError`, with zero generation calls and an
unchanged (empty) store. -/
theorem c8_transcript_bounds_witness :
    ∃ m, blogGeneratePOST { jobs := [], blogPosts := [], wpConfigs := [] }
      "u1" none (some (String.mk (List.replicate (500000+1) 'a')))
      (.ok { title := "T", content := "C", wordCount := 1, seoMetadata := "s" })
      "blog1" =
      ⟨.error (.validationError m),
        { jobs := [], blogPosts := [], wpConfigs := [] }, 0⟩ := by
  exact c8_transcript_bounds.1
    { jobs := [], blogPosts := [], wpConfigs := [] } "u1"
    (String.mk (List.replicate (500000+1) 'a'))
    (.ok { title := "T", content := "C", wordCount := 1, seoMetadata := "s" })
    "blog1"
    (truthy_mk_replicate_succ 500000 'a')
    (by rw [length_mk_replicate]; omega)

/-! ## C2: run-publish is at-most-once per artifact -/

/-- The idempotent early return of the publish route: a blog post whose
`wordpressPostId` is set short-circuits before any remote interaction. -/
theorem wordpressPublishPOST_already (db : DB) (userId bid : String)
    (b : BlogPost) (cfg : Option WPConfigInput) (d : PublishDoubles)
    (hbid : bid ≠ "") (hfind : db.findBlogPost bid = some b)
    (hown : b.userId = some userId) (hpub : truthy b.wordpressPostId = true) :
    wordpressPublishPOST db userId (some bid) cfg d =
      ⟨.ok (.already bid (parseIntOpt (b.wordpressPostId.getD ""))), db, 0, 0⟩ := by
  have htruthy : truthy (some bid) = true := by
    simp [truthy, beq_eq_false_iff_ne.mpr hbid]
  simp [wordpressPublishPOST, htruthy, hfind, hown, hpub]

/-- Once the stored post is already published, any further sequence of
publish requests performs zero remote publish calls and answers each
request with the stored reference. -/
theorem publishMany_already (userId bid : String) (cfg : Option WPConfigInput)
    (ds : List PublishDoubles) :
    ∀ (db : DB) (b : BlogPost), bid ≠ "" → db.findBlogPost bid = some b →
      b.userId = some userId → truthy b.wordpressPostId = true →
      (publishMany db userId (some bid) cfg ds).1 = db ∧
      (publishMany db userId (some bid) cfg ds).2.1 = 0 ∧
      ∀ res ∈ (publishMany db userId (some bid) cfg ds).2.2,
        res = .ok (.already bid (parseIntOpt (b.wordpressPostId.getD ""))) := by
  induction ds with
  | nil =>
    intro db b _ _ _ _
    exact ⟨rfl, rfl, by simp [publishMany]⟩
  | cons d ds ih =>
    intro db b hbid hfind hown hpub
    have hstep := wordpressPublishPOST_already db userId bid b cfg d
      hbid hfind hown hpub
    have hrest := ih db b hbid hfind hown hpub
    refine ⟨?_, ?_, ?_⟩
    · simp only [publishMany, hstep]
      exact hrest.1
    · simp only [publishMany, hstep]
      simpa using hrest.2.1
    · intro res hres
      simp only [publishMany, hstep] at hres
      rcases List.mem_cons.mp hres with h | h
      · exact h
      · exact hrest.2.2 res h

/-- C2: a blog post already carrying a `wordpressPostId` is answered from
the store with zero connect/publish calls and no write; and after one
successful publish, any number of further publish requests yields exactly
one remote publish call in total, each later request returning the same
stored post reference. -/
theorem c2_publish_at_most_once :
    (∀ (db : DB) (userId bid : String) (b : BlogPost)
        (cfg : Option WPConfigInput) (d : PublishDoubles),
      bid ≠ "" → db.findBlogPost bid = some b → b.userId = some userId →
      truthy b.wordpressPostId = true →
      wordpressPublishPOST db userId (some bid) cfg d =
        ⟨.ok (.already bid (parseIntOpt (b.wordpressPostId.getD ""))), db, 0, 0⟩) ∧
    (∀ (db : DB) (userId bid : String) (b : BlogPost)
        (cfg : Option WPConfigInput) (d0 : PublishDoubles)
        (ds : List PublishDoubles) (r : PubResult) (c : WPConfig),
      bid ≠ "" → db.findBlogPost bid = some b → b.userId = some userId →
      b.wordpressPostId = none →
      resolveWpConfig db userId cfg = .ok c →
      d0.connect = .ok true → d0.pub = .ok (some r) →
      (publishMany db userId (some bid) cfg (d0 :: ds)).2.1 = 1 ∧
      (publishMany db userId (some bid) cfg (d0 :: ds)).2.2.head? =
        some (.ok (.created bid r.id r.url "published")) ∧
      ∀ res ∈ (publishMany db userId (some bid) cfg (d0 :: ds)).2.2.tail,
        res = .ok (.already bid (parseIntOpt (toString r.id)))) := by
  constructor
  · exact fun db userId bid b cfg d hbid hfind hown hpub =>
      wordpressPublishPOST_already db userId bid b cfg d hbid hfind hown hpub
  · intro db userId bid b cfg d0 ds r c hbid hfind hown hnone hcfg hconn hpub
    have htruthy : truthy (some bid) = true := by
      simp [truthy, beq_eq_false_iff_ne.mpr hbid]
    have hid : (b.id == bid) = true := by
      have h := hfind
      unfold DB.findBlogPost at h
      have h2 := List.find?_some h
      exact h2
    have hrun0 : wordpressPublishPOST db userId (some bid) cfg d0 =
        ⟨.ok (.created bid r.id r.url "published"),
          db.updateBlogPost bid (fun bb =>
            { bb with wordpressPostId := some (toString r.id)
                      status := "published" }), 1, 1⟩ := by
      simp [wordpressPublishPOST, htruthy, hfind, hown, hnone, truthy,
        hcfg, hconn, hpub]
      exact hbid
    have hfind1 : (db.updateBlogPost bid (fun bb =>
        { bb with wordpressPostId := some (toString r.id)
                  status := "published" })).findBlogPost bid =
        some { b with wordpressPostId := some (toString r.id)
                      status := "published" } := by
      rw [DB.findBlogPost_updateBlogPost db bid
        (fun bb => { bb with wordpressPostId := some (toString r.id)
                             status := "published" })
        (fun bb => rfl) bid, hfind]
      simp only [Option.map_some']
      rw [if_pos hid]
    have hrest := publishMany_already userId bid cfg ds
      (db.updateBlogPost bid (fun bb =>
        { bb with wordpressPostId := some (toString r.id)
                  status := "published" }))
      { b with wordpressPostId := some (toString r.id), status := "published" }
      hbid hfind1 hown (truthy_toString_nat r.id)
    refine ⟨?_, ?_, ?_⟩
    · simp only [publishMany, hrun0]
      rw [hrest.2.1]
    · simp only [publishMany, hrun0, List.head?]
    · intro res hres
      simp only [publishMany, hrun0, List.tail] at hres
      exact hrest.2.2 res hres

/-- C2 witness: a concrete draft post published once with remote id 7;
three publish requests in a row make exactly one remote call, the second
and third returning the stored reference `some 7`. -/
theorem c2_publish_at_most_once_witness :
    (publishMany publishStoreFixture "u1" (some "blog1") none
      [publishOkDoubles 7, publishOkDoubles 8, publishDownDoubles]).2.1 = 1 ∧
    ∀ res ∈ (publishMany publishStoreFixture "u1" (some "blog1") none
      [publishOkDoubles 7, publishOkDoubles 8, publishDownDoubles]).2.2.tail,
      res = .ok (.already "blog1" (parseIntOpt (toString 7))) := by
  have h := c2_publish_at_most_once.2 publishStoreFixture "u1" "blog1"
    draftPostFixture none (publishOkDoubles 7)
    [publishOkDoubles 8, publishDownDoubles]
    { id := 7, url := "https://wp.example.com/p" } wpConfigFixture
    (by decide) (by rfl) (by rfl) (by rfl) (by rfl) (by rfl) (by rfl)
  exact ⟨h.1, h.2.2⟩

/-! ## C5: URL validation and job creation -/

/-- C5 counterexample: job creation writes status "processing", not
"pending"; and the videos/process route rejects a URL with an
unrecognized extension with `VideoProcessingError`, not
`ValidationError`. -/
theorem c5_created_processing_counterexample :
    (createVideoJob "https://example.com/video.mp4" "job1").status = "processing" ∧
    (createVideoJob "https://example.com/video.mp4" "job1").status ≠ "pending" ∧
    (videosProcessPOST emptyStore (some "https://example.com/file.txt")
        videosOkDoubles "job1").result =
      .error (.videoProcessingError "Invalid or unsupported video URL") ∧
    (∀ m, (videosProcessPOST emptyStore (some "https://example.com/file.txt")
        videosOkDoubles "job1").result ≠ .error (.validationError m)) := by
  refine ⟨rfl, by decide, rfl, ?_⟩
  intro m hc
  rw [show (videosProcessPOST emptyStore (some "https://example.com/file.txt")
      videosOkDoubles "job1").result =
      .error (.videoProcessingError "Invalid or unsupported video URL") from rfl] at hc
  simp at hc

/-- C5 amended: a URL that parses with an http/https protocol and a
recognized video extension passes `isValidVideoUrl` and job creation
yields a Job in status "processing" (not "pending"); a URL with a bad
protocol or unrecognized extension fails `isValidVideoUrl`, upon which
the workflow route rejects with `ValidationError` and the videos/process
route rejects with `VideoProcessingError`, in both cases writing no Job
record. -/
theorem c5_url_validation :
    (∀ url u, parseURL url = some u →
      (u.protocol = "http:" ∨ u.protocol = "https:") →
      allowedFormats.any (fun ext => jsEndsWith (jsToLower u.pathname) ext) = true →
      isValidVideoUrl url = true) ∧
    (∀ url u, parseURL url = some u →
      u.protocol ≠ "http:" → u.protocol ≠ "https:" →
      isValidVideoUrl url = false) ∧
    (∀ url u, parseURL url = some u →
      allowedFormats.any (fun ext => jsEndsWith (jsToLower u.pathname) ext) = false →
      isValidVideoUrl url = false) ∧
    (∀ url id, (createVideoJob url id).status = "processing") ∧
    (∀ (db : DB) (url : String) (cfg : Option WPConfigInput) (pub? : Bool)
        (d : WorkflowDoubles) (jid bid : String),
      truthy (some url) = true → isValidVideoUrl url = false →
      workflowProcessPOST db (some url) cfg pub? d jid bid =
        ⟨.error (.validationError "Invalid video URL format"), db, []⟩) ∧
    (∀ (db : DB) (url : String) (d : VideosDoubles) (jid : String),
      truthy (some url) = true → ¬ 2000 < url.length →
      isValidVideoUrl url = false →
      videosProcessPOST db (some url) d jid =
        ⟨.error (.videoProcessingError "Invalid or unsupported video URL"), db, []⟩) := by
  refine ⟨?_, ?_, ?_, fun _ _ => rfl, ?_, ?_⟩
  · intro url u hparse hp he
    unfold isValidVideoUrl
    rw [hparse]
    rcases hp with hp | hp <;> simp [hp, he]
  · intro url u hparse hp1 hp2
    unfold isValidVideoUrl
    rw [hparse]
    simp [hp1, hp2]
  · intro url u hparse he
    unfold isValidVideoUrl
    rw [hparse]
    simp [he]
  · intro db url cfg pub? d jid bid ht hv
    simp [workflowProcessPOST, ht, hv]
  · intro db url d jid ht hlen hv
    simp [videosProcessPOST, ht, hlen, hv]

/-- C5 amended, witness: "https://example.com/video.mp4" is accepted and
creates a "processing" job; "ftp://example.com/video.mp4" is rejected by
the workflow route with `ValidationError` and by the videos/process
route with `VideoProcessingError`, with no store change. -/
theorem c5_url_validation_witness :
    isValidVideoUrl "https://example.com/video.mp4" = true ∧
    (createVideoJob "https://example.com/video.mp4" "job1").status = "processing" ∧
    workflowProcessPOST emptyStore (some "ftp://example.com/video.mp4") none false
      { fetchVideo := .ok (), transcribe := .ok "hi",
        generate := .ok { title := "T", content := "C", wordCount := 1, seoMetadata := "s" },
        pub := .ok none } "job1" "blog1" =
      ⟨.error (.validationError "Invalid video URL format"), emptyStore, []⟩ ∧
    videosProcessPOST emptyStore (some "ftp://example.com/video.mp4")
      videosOkDoubles "job1" =
      ⟨.error (.videoProcessingError "Invalid or unsupported video URL"),
        emptyStore, []⟩ := by
  refine ⟨?_, ?_, ?_, ?_⟩
  · exact c5_url_validation.1 "https://example.com/video.mp4"
      { protocol := "https:", pathname := "/video.mp4" } rfl (Or.inr rfl) (by decide)
  · exact c5_url_validation.2.2.2.1 "https://example.com/video.mp4" "job1"
  · exact c5_url_validation.2.2.2.2.1 emptyStore "ftp://example.com/video.mp4"
      none false
      { fetchVideo := .ok (), transcribe := .ok "hi",
        generate := .ok { title := "T", content := "C", wordCount := 1, seoMetadata := "s" },
        pub := .ok none } "job1" "blog1" (by decide) (by decide)
  · exact c5_url_validation.2.2.2.2.2 emptyStore "ftp://example.com/video.mp4"
      videosOkDoubles "job1" (by decide) (by decide) (by decide)

/-! ## C6: what is persisted on stage failure -/

/-- Looking up a freshly inserted job finds it. -/
theorem DB.findJob_insertJob_fresh (db : DB) (j : VideoJob)
    (hfresh : db.findJob j.id = none) :
    (db.insertJob j).findJob j.id = some j := by
  unfold DB.findJob DB.insertJob
  unfold DB.findJob at hfresh
  rw [List.find?_append, hfresh]
  simp

/-- Marking a stored job failed makes its persisted status "failed". -/
theorem findJob_failJob_status (db : DB) (jid : String) (j : VideoJob)
    (h : db.findJob jid = some j) :
    ((db.failJob jid).findJob jid).map VideoJob.status = some "failed" := by
  have hid : (j.id == jid) = true := by
    have h2 := h
    unfold DB.findJob at h2
    have h3 := List.find?_some h2
    exact h3
  unfold DB.failJob
  rw [DB.findJob_updateJob db jid (fun j => { j with status := "failed" })
    (fun _ => rfl) jid, h]
  simp only [Option.map_some']
  rw [if_pos hid]

/-- C6 counterexample: a fetch failure and a transcription failure
propagate different error kinds but leave byte-identical stores (only
`status: failed` is written, no structured failureReason), so no reader
of the Job Store alone can recover which kind of remote failure
occurred. -/
theorem c6_failure_kind_not_persisted :
    (videosProcessPOST emptyStore (some "https://example.com/video.mp4")
        fetchFailDoubles "jobA").result =
      .error (.videoProcessingError "Failed to process video") ∧
    (videosProcessPOST emptyStore (some "https://example.com/video.mp4")
        transcribeFailDoubles "jobA").result =
      .error (.externalServiceError "Deepgram" "boom") ∧
    (videosProcessPOST emptyStore (some "https://example.com/video.mp4")
        fetchFailDoubles "jobA").db =
      (videosProcessPOST emptyStore (some "https://example.com/video.mp4")
        transcribeFailDoubles "jobA").db ∧
    ∀ recover : DB → ApiError,
      ¬(recover (videosProcessPOST emptyStore (some "https://example.com/video.mp4")
            fetchFailDoubles "jobA").db =
          .videoProcessingError "Failed to process video" ∧
        recover (videosProcessPOST emptyStore (some "https://example.com/video.mp4")
            transcribeFailDoubles "jobA").db =
          .externalServiceError "Deepgram" "boom") := by
  have hdb : (videosProcessPOST emptyStore (some "https://example.com/video.mp4")
      fetchFailDoubles "jobA").db =
      (videosProcessPOST emptyStore (some "https://example.com/video.mp4")
        transcribeFailDoubles "jobA").db := by rfl
  refine ⟨rfl, rfl, hdb, ?_⟩
  intro recover hc
  rw [hdb] at hc
  rw [hc.1] at hc
  simp at hc

/-- C6 amended: on a remote stage failure both per-step and workflow
routes persist only `status: "failed"` on the Job before propagating the
classified error — the fact of failure is recoverable from the store,
its kind and message are not. -/
theorem c6_failed_status_persisted :
    (∀ (db : DB) (url : String) (d : VideosDoubles) (jid : String) (e : ApiError),
      truthy (some url) = true → ¬ 2000 < url.length →
      isValidVideoUrl url = true → db.findJob jid = none →
      d.fetchVideo = .error e →
      (videosProcessPOST db (some url) d jid).result =
        .error (reclassifyVideosError e) ∧
      (((videosProcessPOST db (some url) d jid).db.findJob jid).map
        VideoJob.status) = some "failed") ∧
    (∀ (db : DB) (url : String) (d : VideosDoubles) (jid : String) (e : ApiError),
      truthy (some url) = true → ¬ 2000 < url.length →
      isValidVideoUrl url = true → db.findJob jid = none →
      d.fetchVideo = .ok () → d.transcribe = .error e →
      (videosProcessPOST db (some url) d jid).result =
        .error (reclassifyVideosError e) ∧
      (((videosProcessPOST db (some url) d jid).db.findJob jid).map
        VideoJob.status) = some "failed") ∧
    (∀ (db : DB) (url : String) (cfg : Option WPConfigInput) (pub? : Bool)
        (d : WorkflowDoubles) (jid bid : String) (msg s : String),
      truthy (some url) = true → isValidVideoUrl url = true →
      db.findJob jid = none →
      d.fetchVideo = .ok () → d.transcribe = .ok s → d.generate = .error msg →
      (workflowProcessPOST db (some url) cfg pub? d jid bid).result =
        .error (.externalServiceError "OpenAI" msg) ∧
      (((workflowProcessPOST db (some url) cfg pub? d jid bid).db.findJob jid).map
        VideoJob.status) = some "failed") := by
  have hfind0 : ∀ (db : DB) (url jid : String), db.findJob jid = none →
      (db.insertJob (createVideoJob url jid)).findJob jid =
        some (createVideoJob url jid) :=
    fun db url jid hfresh => DB.findJob_insertJob_fresh db _ hfresh
  refine ⟨?_, ?_, ?_⟩
  · intro db url d jid e ht hlen hv hfresh hfetch
    have hred : videosProcessPOST db (some url) d jid =
        ⟨.error (reclassifyVideosError e),
          (db.insertJob (createVideoJob url jid)).failJob jid, [.fetchVideo]⟩ := by
      simp [videosProcessPOST, ht, hlen, hv, hfetch]
    rw [hred]
    exact ⟨rfl, findJob_failJob_status _ jid _ (hfind0 db url jid hfresh)⟩
  · intro db url d jid e ht hlen hv hfresh hfetch htrans
    have hred : videosProcessPOST db (some url) d jid =
        ⟨.error (reclassifyVideosError e),
          (db.insertJob (createVideoJob url jid)).failJob jid,
          [.fetchVideo, .transcribe]⟩ := by
      simp [videosProcessPOST, ht, hlen, hv, hfetch, htrans]
    rw [hred]
    exact ⟨rfl, findJob_failJob_status _ jid _ (hfind0 db url jid hfresh)⟩
  · intro db url cfg pub? d jid bid msg s ht hv hfresh hfetch htrans hgen
    have hred : workflowProcessPOST db (some url) cfg pub? d jid bid =
        ⟨.error (.externalServiceError "OpenAI" msg),
          ((db.insertJob (createVideoJob url jid)).updateJob jid
            (fun j => { j with transcription := some s })).failJob jid,
          [.fetchVideo, .transcribe, .generate]⟩ := by
      simp [workflowProcessPOST, ht, hv, hfetch, htrans, hgen]
    rw [hred]
    refine ⟨rfl, ?_⟩
    have hfind1 : ((db.insertJob (createVideoJob url jid)).updateJob jid
        (fun j => { j with transcription := some s })).findJob jid =
        some { createVideoJob url jid with transcription := some s } := by
      rw [DB.findJob_updateJob (db.insertJob (createVideoJob url jid)) jid
        (fun j => { j with transcription := some s }) (fun _ => rfl) jid,
        hfind0 db url jid hfresh]
      simp [createVideoJob]
    exact findJob_failJob_status _ jid _ hfind1

/-- C6 amended, witness: a concrete transcription failure leaves the one
job with persisted status "failed" and surfaces the Deepgram service
error. -/
theorem c6_failed_status_persisted_witness :
    (videosProcessPOST emptyStore (some "https://example.com/video.mp4")
        transcribeFailDoubles "jobA").result =
      .error (reclassifyVideosError (.externalServiceError "Deepgram" "boom")) ∧
    (((videosProcessPOST emptyStore (some "https://example.com/video.mp4")
        transcribeFailDoubles "jobA").db.findJob "jobA").map
      VideoJob.status) = some "failed" := by
  exact c6_failed_status_persisted.2.1 emptyStore "https://example.com/video.mp4"
    transcribeFailDoubles "jobA" (.externalServiceError "Deepgram" "boom")
    (by decide) (by decide) (by decide) (by rfl) (by rfl) (by rfl)

/-! ## C4: the composed workflow runs stages in order and
short-circuits -/

/-- C4: the workflow's remote-stage trace is always a prefix of
fetch → transcribe → generate → publish; on a fetch, transcription or
generation failure the workflow stops at that stage, reports the error
as its terminal result and persists the job as failed, attempting no
later stage; and when publishing is not requested the publish client is
never consulted. -/
theorem c4_workflow_sequencing (db : DB) (url : String)
    (cfg : Option WPConfigInput) (pub? : Bool) (d : WorkflowDoubles)
    (jid bid : String) (ht : truthy (some url) = true)
    (hv : isValidVideoUrl url = true) (hfresh : db.findJob jid = none) :
    (∃ n, (workflowProcessPOST db (some url) cfg pub? d jid bid).trace =
      stageOrder.take n) ∧
    (∀ e, d.fetchVideo = .error e →
      (workflowProcessPOST db (some url) cfg pub? d jid bid).result = .error e ∧
      (workflowProcessPOST db (some url) cfg pub? d jid bid).trace =
        [.fetchVideo] ∧
      (((workflowProcessPOST db (some url) cfg pub? d jid bid).db.findJob jid).map
        VideoJob.status) = some "failed") ∧
    (∀ e, d.fetchVideo = .ok () → d.transcribe = .error e →
      (workflowProcessPOST db (some url) cfg pub? d jid bid).result = .error e ∧
      (workflowProcessPOST db (some url) cfg pub? d jid bid).trace =
        [.fetchVideo, .transcribe] ∧
      (((workflowProcessPOST db (some url) cfg pub? d jid bid).db.findJob jid).map
        VideoJob.status) = some "failed") ∧
    (∀ msg s, d.fetchVideo = .ok () → d.transcribe = .ok s →
      d.generate = .error msg →
      (workflowProcessPOST db (some url) cfg pub? d jid bid).result =
        .error (.externalServiceError "OpenAI" msg) ∧
      (workflowProcessPOST db (some url) cfg pub? d jid bid).trace =
        [.fetchVideo, .transcribe, .generate] ∧
      StageEvent.publish ∉
        (workflowProcessPOST db (some url) cfg pub? d jid bid).trace ∧
      (((workflowProcessPOST db (some url) cfg pub? d jid bid).db.findJob jid).map
        VideoJob.status) = some "failed") ∧
    (pub? = false → StageEvent.publish ∉
      (workflowProcessPOST db (some url) cfg pub? d jid bid).trace) := by
  have hfind0 : (db.insertJob (createVideoJob url jid)).findJob jid =
      some (createVideoJob url jid) := DB.findJob_insertJob_fresh db _ hfresh
  refine ⟨?_, ?_, ?_, ?_, ?_⟩
  · rcases d with ⟨df, dt, dg, dp⟩
    cases df with
    | error e => exact ⟨1, by simp [workflowProcessPOST, ht, hv, stageOrder]⟩
    | ok u =>
      cases dt with
      | error e => exact ⟨2, by simp [workflowProcessPOST, ht, hv, stageOrder]⟩
      | ok s =>
        cases dg with
        | error m => exact ⟨3, by simp [workflowProcessPOST, ht, hv, stageOrder]⟩
        | ok r =>
          cases pub? with
          | false => exact ⟨3, by simp [workflowProcessPOST, ht, hv, stageOrder]⟩
          | true =>
            rcases cfg with _ | c
            · cases hw : db.findWpConfig "system" with
              | none =>
                exact ⟨3, by simp [workflowProcessPOST, ht, hv, stageOrder,
                  DB.findWpConfig_insertJob, DB.findWpConfig_updateJob,
                  DB.findWpConfig_insertBlogPost, hw]⟩
              | some c =>
                refine ⟨4, ?_⟩
                cases dp with
                | error e =>
                  simp [workflowProcessPOST, ht, hv, stageOrder,
                    DB.findWpConfig_insertJob, DB.findWpConfig_updateJob,
                    DB.findWpConfig_insertBlogPost, hw]
                | ok w =>
                  rcases w with _ | pr <;>
                    simp [workflowProcessPOST, ht, hv, stageOrder,
                      DB.findWpConfig_insertJob, DB.findWpConfig_updateJob,
                      DB.findWpConfig_insertBlogPost, hw]
            · refine ⟨4, ?_⟩
              cases dp with
              | error e => simp [workflowProcessPOST, ht, hv, stageOrder]
              | ok w =>
                rcases w with _ | pr <;>
                  simp [workflowProcessPOST, ht, hv, stageOrder]
  · intro e hfetch
    have hred : workflowProcessPOST db (some url) cfg pub? d jid bid =
        ⟨.error e, (db.insertJob (createVideoJob url jid)).failJob jid,
          [.fetchVideo]⟩ := by
      simp [workflowProcessPOST, ht, hv, hfetch]
    rw [hred]
    exact ⟨rfl, rfl, findJob_failJob_status _ jid _ hfind0⟩
  · intro e hfetch htrans
    have hred : workflowProcessPOST db (some url) cfg pub? d jid bid =
        ⟨.error e, (db.insertJob (createVideoJob url jid)).failJob jid,
          [.fetchVideo, .transcribe]⟩ := by
      simp [workflowProcessPOST, ht, hv, hfetch, htrans]
    rw [hred]
    exact ⟨rfl, rfl, findJob_failJob_status _ jid _ hfind0⟩
  · intro msg s hfetch htrans hgen
    have hred : workflowProcessPOST db (some url) cfg pub? d jid bid =
        ⟨.error (.externalServiceError "OpenAI" msg),
          ((db.insertJob (createVideoJob url jid)).updateJob jid
            (fun j => { j with transcription := some s })).failJob jid,
          [.fetchVideo, .transcribe, .generate]⟩ := by
      simp [workflowProcessPOST, ht, hv, hfetch, htrans, hgen]
    rw [hred]
    refine ⟨rfl, rfl, by simp, ?_⟩
    have hfind1 : ((db.insertJob (createVideoJob url jid)).updateJob jid
        (fun j => { j with transcription := some s })).findJob jid =
        some { createVideoJob url jid with transcription := some s } := by
      rw [DB.findJob_updateJob (db.insertJob (createVideoJob url jid)) jid
        (fun j => { j with transcription := some s }) (fun _ => rfl) jid, hfind0]
      simp [createVideoJob]
    exact findJob_failJob_status _ jid _ hfind1
  · intro hpub
    subst hpub
    rcases d with ⟨df, dt, dg, dp⟩
    cases df with
    | error e => simp [workflowProcessPOST, ht, hv]
    | ok u =>
      cases dt with
      | error e => simp [workflowProcessPOST, ht, hv]
      | ok s =>
        cases dg with
        | error m => simp [workflowProcessPOST, ht, hv]
        | ok r => simp [workflowProcessPOST, ht, hv]

/-- C4 witness: with a healthy fetch/transcribe and a failing generation
double, the workflow's trace is exactly fetch, transcribe, generate (a
prefix of the canonical order), the publish client is never consulted,
the job is persisted as failed and the OpenAI error is the terminal
result. -/
theorem c4_workflow_sequencing_witness :
    (∃ n, (workflowProcessPOST emptyStore (some "https://example.com/video.mp4")
      none true
      { fetchVideo := .ok (), transcribe := .ok "hi",
        generate := .error "model down", pub := .ok none }
      "job1" "blog1").trace = stageOrder.take n) ∧
    (workflowProcessPOST emptyStore (some "https://example.com/video.mp4")
      none true
      { fetchVideo := .ok (), transcribe := .ok "hi",
        generate := .error "model down", pub := .ok none }
      "job1" "blog1").result =
      .error (.externalServiceError "OpenAI" "model down") ∧
    StageEvent.publish ∉
      (workflowProcessPOST emptyStore (some "https://example.com/video.mp4")
        none true
        { fetchVideo := .ok (), transcribe := .ok "hi",
          generate := .error "model down", pub := .ok none }
        "job1" "blog1").trace ∧
    (((workflowProcessPOST emptyStore (some "https://example.com/video.mp4")
        none true
        { fetchVideo := .ok (), transcribe := .ok "hi",
          generate := .error "model down", pub := .ok none }
        "job1" "blog1").db.findJob "job1").map VideoJob.status) = some "failed" := by
  have h := c4_workflow_sequencing emptyStore "https://example.com/video.mp4"
    none true
    { fetchVideo := .ok (), transcribe := .ok "hi",
      generate := .error "model down", pub := .ok none }
    "job1" "blog1" (by decide) (by decide) (by rfl)
  have hg := h.2.2.2.1 "model down" "hi" (by rfl) (by rfl) (by rfl)
  exact ⟨h.1, hg.1, hg.2.2.1, hg.2.2.2⟩

/-! ## C9: the polling client -/

/-- Against the scenario endpoint the hook state is: timer active with
zero recorded failures exactly for the first four queries. -/
theorem pollState_scenario (k : Nat) :
    pollState maxRetriesDefault scenarioResp k = (decide (k < 4), 0) := by
  induction k with
  | zero => rfl
  | succ k ih =>
    simp only [pollState, ih]
    by_cases h4 : k < 4
    · rw [if_pos (by simpa using h4)]
      by_cases h3 : k < 3
      · have hr : scenarioResp k = .ok "generating" := by simp [scenarioResp, h3]
        rw [hr]
        simp only [pollStep, isTerminalStatus]
        have : k + 1 < 4 := by omega
        simp [this]
      · have hk : k = 3 := by omega
        subst hk
        rfl
    · rw [if_neg (by simpa using h4)]
      have : ¬ k + 1 < 4 := by omega
      simp [h4, this]

/-- Against the scenario endpoint the hook issues `min n 4` queries in
the first `n` slots: exactly four in total. -/
theorem queriesIssued_scenario (n : Nat) :
    queriesIssued maxRetriesDefault scenarioResp n = min n 4 := by
  induction n with
  | zero => rfl
  | succ n ih =>
    unfold queriesIssued at ih ⊢
    rw [List.range_succ, List.countP_append, ih]
    have hq : queryIssued maxRetriesDefault scenarioResp n = decide (n < 4) := by
      unfold queryIssued
      rw [pollState_scenario]
    by_cases h : n < 4
    · have hq1 : List.countP
          (fun k => queryIssued maxRetriesDefault scenarioResp k) [n] = 1 := by
        simp [List.countP_cons, List.countP_nil, hq, h]
      rw [hq1, Nat.min_eq_left (by omega : n ≤ 4),
        Nat.min_eq_left (by omega : n + 1 ≤ 4)]
    · have hq0 : List.countP
          (fun k => queryIssued maxRetriesDefault scenarioResp k) [n] = 0 := by
        simp [List.countP_cons, List.countP_nil, hq, h]
      rw [hq0, Nat.min_eq_right (by omega : 4 ≤ n),
        Nat.min_eq_right (by omega : 4 ≤ n + 1)]

/-- C9 amended: the polling hook queries immediately on start and then
once per tick of the fixed default 3000 ms interval; it stops permanently
as soon as a query observes a terminal status (`completed`/`failed`), or
as soon as the cumulative count of failed queries since polling started
(not necessarily consecutive failures) reaches the default maximum of 10;
and against an endpoint returning a non-terminal step three times and
then `completed`, it issues exactly `min n 4` queries in every horizon —
four in total, with no fifth. -/
theorem c9_polling_stop_conditions :
    pollIntervalDefault = 3000 ∧ maxRetriesDefault = 10 ∧
    (∀ (mr : Nat) (resp : Nat → FetchOutcome), queryIssued mr resp 0 = true) ∧
    (∀ (mr : Nat) (resp : Nat → FetchOutcome) (k : Nat) (s : String),
      queryIssued mr resp k = true → resp k = .ok s →
      isTerminalStatus s = true → queryIssued mr resp (k+1) = false) ∧
    (∀ (mr : Nat) (resp : Nat → FetchOutcome) (k : Nat),
      queryIssued mr resp k = false → queryIssued mr resp (k+1) = false) ∧
    (∀ (mr : Nat) (resp : Nat → FetchOutcome) (k : Nat),
      queryIssued mr resp k = true → resp k = .err →
      (queryIssued mr resp (k+1) = true ↔ (pollState mr resp k).2 + 1 < mr)) ∧
    (∀ n, queriesIssued maxRetriesDefault scenarioResp n = min n 4) := by
  refine ⟨rfl, rfl, fun _ _ => rfl, ?_, ?_, ?_, queriesIssued_scenario⟩
  · intro mr resp k s hq hresp hterm
    unfold queryIssued at hq ⊢
    simp only [pollState, hq, if_true, hresp, pollStep, hterm]
    rfl
  · intro mr resp k hq
    unfold queryIssued at hq ⊢
    simp [pollState, hq]
  · intro mr resp k hq hresp
    unfold queryIssued at hq ⊢
    simp [pollState, hq, hresp, pollStep]

/-- C9 amended, witness: in the scenario run the fifth query slot is not
used and twenty slots still yield exactly four queries. -/
theorem c9_polling_stop_conditions_witness :
    queryIssued maxRetriesDefault scenarioResp 4 = false ∧
    queriesIssued maxRetriesDefault scenarioResp 20 = 4 := by
  constructor
  · exact c9_polling_stop_conditions.2.2.2.1 maxRetriesDefault scenarioResp 3
      "completed" (by decide) (by rfl) (by rfl)
  · have h := c9_polling_stop_conditions.2.2.2.2.2.2 20
    simpa using h

/-- C9 counterexample: against an endpoint whose failures alternate with
non-terminal successes, the hook stops before query 19 even though no
query ever observed a terminal status and no window of ten consecutive
queries consists solely of failures — the retry counter is cumulative
since start, never reset by a successful query, contradicting the
claimed "10 consecutive failed attempts" stop rule. -/
theorem c9_stops_on_cumulative_failures :
    queryIssued maxRetriesDefault alternatingResp 18 = true ∧
    queryIssued maxRetriesDefault alternatingResp 19 = false ∧
    ((List.range 19).all (fun k =>
      match alternatingResp k with
      | .ok s => !(isTerminalStatus s)
      | .err => true)) = true ∧
    ((List.range 10).all (fun j =>
      (List.range 10).any (fun i =>
        match alternatingResp (j + i) with
        | .ok _ => true
        | .err => false))) = true := by
  exact ⟨by decide, by decide, by decide, by decide⟩

end V2B
